import Mathlib

set_option maxRecDepth 16384

/-!
Shallow embedding of `src/onboardmate.py` (OnboardMate, a Streamlit app that
builds one prompt from six employee fields, sends it to a hosted
text-generation service, persists the inputs to an Excel file and renders the
returned text into a PDF; a second tab forwards a free-text query to the same
service).

Python text values are modeled as lists of characters (`Str`).  The remote
service is modeled as a function from the chat history at session start and
the message sent to the observable outcome of the call; both entry points of
the code call `self.model.start_chat(history=[])`, so the history argument is
always `[]`.  File state is modeled explicitly: `none` means the Excel file
does not exist, `some df` means it holds the rows `df`.
-/

namespace OnboardMate

/-- Python strings, modeled as lists of characters. -/
abbrev Str := List Char

/-- One candidate of a service response; the code inspects only its
`finish_reason` attribute (line 55). -/
structure Candidate where
  finish_reason : Str
deriving DecidableEq

/-- Outcome of evaluating the `response.text` quick accessor: it either yields
the text or raises an exception (the SDK raises a `ValueError`, never a
`StopCandidateException`, e.g. when the response has no candidates); the
payload is the exception message. -/
inductive TextAccess where
  | ok (t : Str)
  | raises (m : Str)
deriving DecidableEq

/-- An exception escaping a service call, split the way the `except` clause at
line 60 distinguishes them: a `StopCandidateException` is caught there, any
other exception propagates. -/
inductive PyExc where
  | stopCandidate (msg : Str)
  | serviceError (msg : Str)
deriving DecidableEq

/-- The observable outcome of one `chat.send_message` call: either a response
value, carrying its candidate list and the behavior of its `.text` accessor,
or a raised exception. -/
inductive CallResult where
  | response (candidates : List Candidate) (text : TextAccess)
  | raised (e : PyExc)
deriving DecidableEq

/-- The remote service as the code observes it: given the history the chat
session was started with and the message sent, the outcome of the call. -/
abbrev Service := List Str → Str → CallResult

/-! ### Prompt Builder (lines 32-50)

The triple-quoted `prompt_template` literal, split at its six `{...}` format
slots.  `prompt_template.format(**employee_data)` is embedded as the
concatenation of these fixed pieces with the six field values; adjacent
literal pieces are split so that each slot label is its own definition. -/

/-- Template text from the opening of the literal up to the Name label. -/
def tpl_head : Str :=
  "Create a personalized onboarding plan for a new hire with the following details:\n\n        ".data

/-- The literal `\n` and 8-space indentation between two bullet lines. -/
def tpl_sep : Str := "\n        ".data

/-- The bullet label preceding the name slot. -/
def lbl_name : Str := "*   **Name:** ".data

/-- The bullet label preceding the role slot. -/
def lbl_role : Str := "*   **Role:** ".data

/-- The bullet label preceding the department slot. -/
def lbl_department : Str := "*   **Department:** ".data

/-- The bullet label preceding the start-date slot. -/
def lbl_start_date : Str := "*   **Start Date:** ".data

/-- The bullet label preceding the previous-experience slot. -/
def lbl_previous_experience : Str := "*   **Previous Experience:** ".data

/-- The bullet label preceding the goals slot. -/
def lbl_goals : Str := "*   **Onboarding Goals:** ".data

/-- Template text after the goals slot up to the closing quotes (which sit on
their own line after 8 spaces of indentation). -/
def tpl_tail : Str :=
  "\n\n        The plan should include:\n        - A checklist of tasks to be completed\n        - A schedule of onboarding sessions\n        - Links to relevant training materials\n        - Key contacts and resources\n\n        Write the onboarding plan in a clear and concise format.\n        ".data

/-- The `employee_data` dictionary built in `main` (lines 152-159); the
`start_date` field holds the date already rendered by
`start_date.strftime` with format year-month-day. -/
structure EmployeeProfile where
  name : Str
  role : Str
  department : Str
  start_date : Str
  previous_experience : Str
  goals : Str
deriving DecidableEq

/-- `final_prompt` at line 50: the template with each field value substituted
verbatim into its slot. -/
def build_prompt (p : EmployeeProfile) : Str :=
  tpl_head ++ lbl_name ++ p.name ++ tpl_sep ++ lbl_role ++ p.role ++
    tpl_sep ++ lbl_department ++ p.department ++ tpl_sep ++ lbl_start_date ++
    p.start_date ++ tpl_sep ++ lbl_previous_experience ++
    p.previous_experience ++ tpl_sep ++ lbl_goals ++ p.goals ++ tpl_tail

/-- The six field values of a profile, in template order. -/
def field_values (p : EmployeeProfile) : List Str :=
  [p.name, p.role, p.department, p.start_date, p.previous_experience, p.goals]

/-- All fixed text of the template (the concatenation of the literal pieces
with the slots removed); every character of a built prompt comes either from
here or from the profile. -/
def template_text : Str :=
  tpl_head ++ lbl_name ++ tpl_sep ++ lbl_role ++ tpl_sep ++ lbl_department ++
    tpl_sep ++ lbl_start_date ++ tpl_sep ++ lbl_previous_experience ++
    tpl_sep ++ lbl_goals ++ tpl_tail

/-! ### Generation Client (lines 52-62) -/

/-- The string compared against `finish_reason` at line 55. -/
def recitation : Str := "RECITATION".data

/-- The condition of line 55,
`response.candidates and response.candidates[0].finish_reason == "RECITATION"`:
a non-empty candidate list whose first element stopped for recitation. -/
def recitation_stop (candidates : List Candidate) : Bool :=
  match candidates with
  | [] => false
  | c :: _ => decide (c.finish_reason = recitation)

/-- The body of the `try` block, lines 54-59: inspect the outcome of the send,
return `none` on a recitation stop, otherwise take `response.text`; any
exception (from the send or from the `.text` accessor) is an `error`. -/
def plan_try_body (call : CallResult) : Except PyExc (Option Str) :=
  match call with
  | .raised e => .error e
  | .response candidates text =>
    if recitation_stop candidates then .ok none
    else
      match text with
      | .ok t => .ok (some t)
      | .raises m => .error (.serviceError m)

/-- `generate_onboarding_plan`, lines 28-62: build the prompt from the
employee data, start a chat session with empty history, send the prompt as the
sole message, and classify the outcome.  Returns `some text` on success,
`none` (the failure value) on a recitation stop; the `except` clause catches a
`StopCandidateException` and also returns `none`; any other exception
propagates with its message. -/
def generate_onboarding_plan (send : Service) (d : EmployeeProfile) :
    Except Str (Option Str) :=
  match plan_try_body (send [] (build_prompt d)) with
  | .ok v => .ok v
  | .error (.stopCandidate _) => .ok none
  | .error (.serviceError m) => .error m

/-! ### Knowledge Query Wrapper (lines 64-71) -/

/-- The fixed instruction placed before the raw query at line 69. -/
def assistance_preamble : Str :=
  "Provide a detailed response to the following query from a new hire:\n\n".data

/-- `provide_knowledge_assistance`, lines 64-71: start a chat session with
empty history, send the fixed instruction followed by the raw query, and
return `response.text` with no classification; any exception propagates. -/
def provide_knowledge_assistance (send : Service) (query : Str) :
    Except PyExc Str :=
  match send [] (assistance_preamble ++ query) with
  | .raised e => .error e
  | .response _ text =>
    match text with
    | .ok t => .ok t
    | .raises m => .error (.serviceError m)

/-! ### Record Store (lines 84-95) -/

/-- `save_to_excel`, lines 84-95: if the backing file exists, read it in full,
append the one new row after all existing rows, and rewrite the whole store
(the returned list is the full new file content); otherwise create the file
with exactly that one row. -/
def save_to_excel (stored : Option (List EmployeeProfile))
    (data : EmployeeProfile) : List EmployeeProfile :=
  match stored with
  | some df => df ++ [data]
  | none => [data]

/-- Number of data rows in the Excel file; an absent file has none. -/
def row_count (stored : Option (List EmployeeProfile)) : Nat :=
  match stored with
  | some df => df.length
  | none => 0

/-! ### Document Exporter (lines 97-111) -/

/-- Python `content.split` with separator `\n`: split a string at every
newline; the empty string splits into one empty piece. -/
def splitLines : Str → List Str
  | [] => [[]]
  | c :: rest =>
    match splitLines rest with
    | l :: ls => if c = '\n' then [] :: l :: ls else (c :: l) :: ls
    | [] => [[]]

/-- `generate_pdf`, lines 97-111: one `pdf.cell` row is emitted per piece of
`content.split` on newlines; the result is the ordered list of rendered
lines. -/
def generate_pdf (content : Str) : List Str := splitLines content

/-- Number of line-break characters in a string. -/
def line_breaks (s : Str) : Nat := s.count '\n'

/-! ### Presentation Layer handlers (main, lines 150-182 and 210-217) -/

/-- Python `str.strip` for the whitespace characters it removes by default
(space, tab, newline, carriage return, vertical tab, form feed). -/
def py_space (c : Char) : Bool :=
  c = ' ' || c = '\t' || c = '\n' || c = '\r' ||
    c = Char.ofNat 11 || c = Char.ofNat 12

/-- Python `s.strip()`: drop leading and trailing whitespace. -/
def py_strip (s : Str) : Str :=
  ((s.dropWhile py_space).reverse.dropWhile py_space).reverse

/-- The `any([...])` guard at line 151.  `st.date_input` always returns a
date object, which is truthy in Python, so the fourth disjunct is literally
true. -/
def plan_inputs_present (f : EmployeeProfile) : Bool :=
  !(py_strip f.name).isEmpty || !(py_strip f.role).isEmpty ||
    !(py_strip f.department).isEmpty || true ||
    !(py_strip f.previous_experience).isEmpty || !(py_strip f.goals).isEmpty

/-- The banner `main` shows for a submission: `st.success`, `st.error` or
`st.warning`. -/
inductive Banner where
  | success
  | failure
  | warning
deriving DecidableEq

/-- What the onboarding-plan tab shows after a submission: the rendered PDF
lines when a document was exported, whether a download button is offered, and
the banner. -/
structure PlanView where
  exported : Option (List Str)
  download : Bool
  banner : Banner
deriving DecidableEq

/-- The Generate-Onboarding-Plan button handler, lines 150-182: if the guard
passes, call `generate_onboarding_plan`; `if onboarding_plan:` is a Python
truthiness test, so both the failure value and an empty success string take
the `st.error` branch; only a non-empty plan saves a row to the Excel file,
generates the PDF and offers the download.  The first component is the Excel
file state after the handler; an uncaught exception is the `error` case. -/
def plan_submission (send : Service) (f : EmployeeProfile)
    (stored : Option (List EmployeeProfile)) :
    Option (List EmployeeProfile) × Except Str PlanView :=
  if plan_inputs_present f then
    match generate_onboarding_plan send f with
    | .error m => (stored, .error m)
    | .ok plan =>
      match plan with
      | some t =>
        if t.isEmpty then (stored, .ok ⟨none, false, .failure⟩)
        else
          (some (save_to_excel stored f),
            .ok ⟨some (generate_pdf t), true, .success⟩)
      | none => (stored, .ok ⟨none, false, .failure⟩)
  else (stored, .ok ⟨none, false, .warning⟩)

/-- What the knowledge-assistance tab shows after a submission: the rendered
answer when one was obtained, and whether the validation warning was shown. -/
structure AssistView where
  answer : Option Str
  warned : Bool
deriving DecidableEq

/-- The Get-Assistance button handler, lines 210-217: `if query.strip():`
guards the remote call; an empty or whitespace-only query only shows the
warning.  The handler contains no file operation, so the Excel file state (the
first component) is passed through untouched on every path. -/
def assist_submission (send : Service) (query : Str)
    (stored : Option (List EmployeeProfile)) :
    Option (List EmployeeProfile) × Except PyExc AssistView :=
  if !(py_strip query).isEmpty then
    match provide_knowledge_assistance send query with
    | .ok t => (stored, .ok ⟨some t, false⟩)
    | .error e => (stored, .error e)
  else (stored, .ok ⟨none, true⟩)

/-! ### Concrete values used to instantiate the claims -/

/-- The profile of testable property 6 of the specification. -/
def ex_profile : EmployeeProfile :=
  ⟨"Jane Doe".data, "Engineer".data, "R&D".data, "2024-03-01".data,
    "3 years backend".data, "ship onboarding docs".data⟩

/-- A second fully populated profile, sharing only the name value with
`ex_profile`. -/
def ex_profileB : EmployeeProfile :=
  ⟨"Jane Doe".data, "Designer".data, "Marketing".data, "2025-01-15".data,
    "4 years design".data, "learn the brand".data⟩

/-- A fully populated profile whose name contains a hash character, which
occurs neither in the template nor anywhere in `ex_profile`. -/
def ex_profileC : EmployeeProfile :=
  ⟨"#42".data, "Analyst".data, "Finance".data, "2025-06-01".data,
    "2 years audit".data, "close the books".data⟩

/-- The two-line success text of testable property 6 of the specification. -/
def ex_plan_text : Str := "Day 1: meet team\nDay 2: setup laptop".data

/-- A service whose send raises a StopCandidateException. -/
def send_stop : Service := fun _ _ => .raised (.stopCandidate ("candidate stopped".data))

/-- A service returning a response whose first candidate stopped for
recitation. -/
def send_recitation : Service :=
  fun _ _ => .response [⟨("RECITATION".data)⟩] (.ok ("withheld text".data))

/-- A service returning a normal successful response with the two-line plan
text. -/
def send_plan : Service :=
  fun _ _ => .response [⟨("STOP".data)⟩] (.ok ex_plan_text)

/-- A service returning a successful response whose text is the empty
string. -/
def send_empty_success : Service :=
  fun _ _ => .response [⟨("STOP".data)⟩] (.ok [])

/-- A service returning a response with no candidates, whose text accessor
raises. -/
def send_no_candidates : Service :=
  fun _ _ => .response [] (.raises ("response has no candidates".data))

/-! ### Helper lemmas -/

theorem plan_inputs_present_true (f : EmployeeProfile) :
    plan_inputs_present f = true := by
  simp [plan_inputs_present]

theorem splitLines_ne_nil (s : Str) : splitLines s ≠ [] := by
  cases s with
  | nil => simp [splitLines]
  | cons c rest =>
    unfold splitLines
    cases splitLines rest with
    | nil => simp
    | cons l ls =>
      by_cases hc : c = '\n' <;> simp [hc]

theorem splitLines_length (s : Str) :
    (splitLines s).length = s.count '\n' + 1 := by
  induction s with
  | nil => simp [splitLines]
  | cons c rest ih =>
    unfold splitLines
    cases h : splitLines rest with
    | nil => exact absurd h (splitLines_ne_nil rest)
    | cons l ls =>
      rw [h] at ih
      by_cases hc : c = '\n'
      · subst hc
        simp only [if_pos rfl, List.length_cons, List.count_cons]
        simp [ih]
      · simp only [if_neg hc, List.length_cons, List.count_cons]
        simp [hc]
        simp only [List.length_cons] at ih
        omega

theorem generate_pdf_length (t : Str) :
    (generate_pdf t).length = line_breaks t + 1 :=
  splitLines_length t

theorem mem_build_prompt {c : Char} {p : EmployeeProfile}
    (h : c ∈ build_prompt p) :
    c ∈ template_text ∨ ∃ w ∈ field_values p, c ∈ w := by
  simp only [build_prompt, List.mem_append] at h
  simp only [template_text, field_values, List.mem_append, List.mem_cons,
    List.not_mem_nil, or_false, exists_eq_or_imp, exists_eq_left]
  tauto

/-! ### Claims -/

/-- C1: for a submission whose generation outcome is the failure value
(recitation-filtered or stopped), the record store is untouched, its row
count unchanged, and no document is exported or offered for download; the
failure banner is shown. -/
theorem claim_C1 (send : Service) (f : EmployeeProfile)
    (stored : Option (List EmployeeProfile))
    (h : generate_onboarding_plan send f = .ok none) :
    (plan_submission send f stored).1 = stored ∧
    row_count (plan_submission send f stored).1 = row_count stored ∧
    (plan_submission send f stored).2 = .ok ⟨none, false, Banner.failure⟩ := by
  simp [plan_submission, plan_inputs_present_true, h]

/-- C1 witness: a StopCandidateException on a concrete submission leaves the
one-row store unchanged with no export. -/
theorem claim_C1_witness :
    (plan_submission send_stop ex_profile (some [ex_profileB])).1 =
      some [ex_profileB] ∧
    row_count (plan_submission send_stop ex_profile (some [ex_profileB])).1 =
      row_count (some [ex_profileB]) ∧
    (plan_submission send_stop ex_profile (some [ex_profileB])).2 =
      .ok ⟨none, false, Banner.failure⟩ :=
  claim_C1 send_stop ex_profile (some [ex_profileB]) rfl

/-- C2: classification of the single service call made by
generate_onboarding_plan: a response whose first candidate stopped for
recitation yields the filtered outcome, a StopCandidateException yields the
same filtered outcome, any other readable response yields its text as a
success, and any other fault (raised by the send or by the text accessor)
propagates as an error, a constructor distinct from the filtered outcome;
the function makes exactly one call, so there is no automatic retry. -/
theorem claim_C2 (send : Service) (d : EmployeeProfile) :
    (∀ c cs text, send [] (build_prompt d) = .response (c :: cs) text →
      c.finish_reason = recitation →
      generate_onboarding_plan send d = .ok none) ∧
    (∀ m, send [] (build_prompt d) = .raised (.stopCandidate m) →
      generate_onboarding_plan send d = .ok none) ∧
    (∀ cands t, send [] (build_prompt d) = .response cands (.ok t) →
      recitation_stop cands = false →
      generate_onboarding_plan send d = .ok (some t)) ∧
    (∀ cands m, send [] (build_prompt d) = .response cands (.raises m) →
      recitation_stop cands = false →
      generate_onboarding_plan send d = .error m) ∧
    (∀ m, send [] (build_prompt d) = .raised (.serviceError m) →
      generate_onboarding_plan send d = .error m) := by
  refine ⟨?_, ?_, ?_, ?_, ?_⟩
  · intro c cs text h hr
    simp [generate_onboarding_plan, plan_try_body, h, recitation_stop, hr]
  · intro m h
    simp [generate_onboarding_plan, plan_try_body, h]
  · intro cands t h hr
    simp [generate_onboarding_plan, plan_try_body, h, hr]
  · intro cands m h hr
    simp [generate_onboarding_plan, plan_try_body, h, hr]
  · intro m h
    simp [generate_onboarding_plan, plan_try_body, h]

/-- C2 witness: a response whose first candidate stopped for recitation is
classified as the filtered outcome. -/
theorem claim_C2_witness :
    generate_onboarding_plan send_recitation ex_profile = .ok none :=
  (claim_C2 send_recitation ex_profile).1 ⟨("RECITATION".data)⟩ []
    (.ok ("withheld text".data)) rfl rfl

/-- C3 counterexample: with a service that succeeds with an empty text, the
generation outcome is a success, yet the record store is unchanged and no
document is exported, so the success postcondition fails as stated. -/
theorem claim_C3_counterexample :
    generate_onboarding_plan send_empty_success ex_profile = .ok (some []) ∧
    (plan_submission send_empty_success ex_profile (some [ex_profileB])).1 =
      some [ex_profileB] ∧
    row_count
      (plan_submission send_empty_success ex_profile (some [ex_profileB])).1 =
      row_count (some [ex_profileB]) ∧
    (plan_submission send_empty_success ex_profile (some [ex_profileB])).2 =
      .ok ⟨none, false, Banner.failure⟩ :=
  ⟨rfl, rfl, rfl, rfl⟩

/-- C3 (amended): for a submission whose generation outcome is a success with
non-empty text, exactly one row is appended to the record store (row count
increases by exactly one) and exactly one document is exported, whose line
count equals the number of line breaks in the text plus one. -/
theorem claim_C3_amended (send : Service) (f : EmployeeProfile)
    (stored : Option (List EmployeeProfile)) (t : Str)
    (h : generate_onboarding_plan send f = .ok (some t)) (ht : t ≠ []) :
    (plan_submission send f stored).1 = some (save_to_excel stored f) ∧
    row_count (plan_submission send f stored).1 = row_count stored + 1 ∧
    (plan_submission send f stored).2 =
      .ok ⟨some (generate_pdf t), true, Banner.success⟩ ∧
    (generate_pdf t).length = line_breaks t + 1 := by
  have hne : t.isEmpty = false := by
    cases t with
    | nil => exact absurd rfl ht
    | cons a as => rfl
  refine ⟨?_, ?_, ?_, generate_pdf_length t⟩
  · simp [plan_submission, plan_inputs_present_true, h, hne]
  · have h1 : (plan_submission send f stored).1 = some (save_to_excel stored f) := by
      simp [plan_submission, plan_inputs_present_true, h, hne]
    rw [h1]
    cases stored <;> simp [save_to_excel, row_count]
  · simp [plan_submission, plan_inputs_present_true, h, hne]

/-- C3 witness: the scenario of testable property 6: a two-line success text
appends one row to an empty store and exports a two-line document. -/
theorem claim_C3_amended_witness :
    (plan_submission send_plan ex_profile (some [])).1 = some [ex_profile] ∧
    row_count (plan_submission send_plan ex_profile (some [])).1 =
      row_count (some []) + 1 ∧
    (plan_submission send_plan ex_profile (some [])).2 =
      .ok ⟨some (generate_pdf ex_plan_text), true, Banner.success⟩ ∧
    (generate_pdf ex_plan_text).length = line_breaks ex_plan_text + 1 := by
  have h := claim_C3_amended send_plan ex_profile (some []) ex_plan_text rfl
    (by decide)
  simpa [save_to_excel] using h

/-- C9: a generation call that succeeds with the empty string is treated as a
failure by the plan path: no row is appended, no document is exported, no
download is offered, and the failure banner is shown. -/
theorem claim_C9 (send : Service) (f : EmployeeProfile)
    (stored : Option (List EmployeeProfile))
    (h : generate_onboarding_plan send f = .ok (some [])) :
    (plan_submission send f stored).1 = stored ∧
    row_count (plan_submission send f stored).1 = row_count stored ∧
    (plan_submission send f stored).2 = .ok ⟨none, false, Banner.failure⟩ := by
  simp [plan_submission, plan_inputs_present_true, h]

/-- C9 witness: an empty-text success on a concrete submission leaves the
store unchanged and shows the failure banner. -/
theorem claim_C9_witness :
    (plan_submission send_empty_success ex_profile (some [ex_profile])).1 =
      some [ex_profile] ∧
    row_count
      (plan_submission send_empty_success ex_profile (some [ex_profile])).1 =
      row_count (some [ex_profile]) ∧
    (plan_submission send_empty_success ex_profile (some [ex_profile])).2 =
      .ok ⟨none, false, Banner.failure⟩ :=
  claim_C9 send_empty_success ex_profile (some [ex_profile]) rfl

/-- C10: when the response has no candidates, the recitation check is
short-circuit false and the success branch accesses the response text: a
readable text is returned as a success, and a fault raised by the accessor
propagates as an error rather than yielding the filtered outcome. -/
theorem claim_C10 (send : Service) (d : EmployeeProfile) :
    (∀ t, send [] (build_prompt d) = .response [] (.ok t) →
      generate_onboarding_plan send d = .ok (some t)) ∧
    (∀ m, send [] (build_prompt d) = .response [] (.raises m) →
      generate_onboarding_plan send d = .error m) := by
  constructor
  · intro t h
    simp [generate_onboarding_plan, plan_try_body, h, recitation_stop]
  · intro m h
    simp [generate_onboarding_plan, plan_try_body, h, recitation_stop]

/-- C10 witness: a candidate-free response whose text accessor raises makes
the call propagate the error instead of the filtered outcome. -/
theorem claim_C10_witness :
    generate_onboarding_plan send_no_candidates ex_profile =
      .error ("response has no candidates".data) :=
  (claim_C10 send_no_candidates ex_profile).2
    ("response has no candidates".data) rfl

/-- C4 counterexample: two distinct fully populated profiles that share the
name value: the prompt built from the first contains a field value of the
second, so the built prompt does not contain none of a different profile
field values as claimed. -/
theorem claim_C4_counterexample :
    (∀ w ∈ field_values ex_profile, w ≠ []) ∧
    (∀ w ∈ field_values ex_profileB, w ≠ []) ∧
    ex_profileB ≠ ex_profile ∧
    ex_profileB.name ∈ field_values ex_profileB ∧
    ex_profileB.name <:+: build_prompt ex_profile := by
  refine ⟨by decide, by decide, by decide, by decide, ?_⟩
  refine ⟨tpl_head ++ lbl_name, ?_, ?_⟩
  · exact tpl_sep ++ lbl_role ++ ex_profile.role ++ tpl_sep ++
      lbl_department ++ ex_profile.department ++ tpl_sep ++ lbl_start_date ++
      ex_profile.start_date ++ tpl_sep ++ lbl_previous_experience ++
      ex_profile.previous_experience ++ tpl_sep ++ lbl_goals ++
      ex_profile.goals ++ tpl_tail
  · decide

/-- C4 (amended): each of the six field values appears verbatim in the built
prompt immediately after its designated slot label, with no escaping or
sanitization; and a field value of a different profile appears in the prompt
only if every one of its characters already occurs in the fixed template text
or in the own field values of the profile the prompt was built from: a value
containing any character foreign to both is never contained. -/
theorem claim_C4_amended (p : EmployeeProfile) :
    ((∃ u v, build_prompt p = u ++ (lbl_name ++ p.name) ++ v) ∧
     (∃ u v, build_prompt p = u ++ (lbl_role ++ p.role) ++ v) ∧
     (∃ u v, build_prompt p = u ++ (lbl_department ++ p.department) ++ v) ∧
     (∃ u v, build_prompt p = u ++ (lbl_start_date ++ p.start_date) ++ v) ∧
     (∃ u v, build_prompt p =
       u ++ (lbl_previous_experience ++ p.previous_experience) ++ v) ∧
     (∃ u v, build_prompt p = u ++ (lbl_goals ++ p.goals) ++ v)) ∧
    (∀ (q : EmployeeProfile) (w : Str), w ∈ field_values q →
      (∃ c, c ∈ w ∧ c ∉ template_text ∧ ∀ x ∈ field_values p, c ∉ x) →
      ¬ w <:+: build_prompt p) := by
  constructor
  · refine
      ⟨⟨tpl_head,
        tpl_sep ++ lbl_role ++ p.role ++ tpl_sep ++ lbl_department ++
          p.department ++ tpl_sep ++ lbl_start_date ++ p.start_date ++
          tpl_sep ++ lbl_previous_experience ++ p.previous_experience ++
          tpl_sep ++ lbl_goals ++ p.goals ++ tpl_tail, ?_⟩,
      ⟨tpl_head ++ lbl_name ++ p.name ++ tpl_sep,
        tpl_sep ++ lbl_department ++ p.department ++ tpl_sep ++
          lbl_start_date ++ p.start_date ++ tpl_sep ++
          lbl_previous_experience ++ p.previous_experience ++ tpl_sep ++
          lbl_goals ++ p.goals ++ tpl_tail, ?_⟩,
      ⟨tpl_head ++ lbl_name ++ p.name ++ tpl_sep ++ lbl_role ++ p.role ++
          tpl_sep,
        tpl_sep ++ lbl_start_date ++ p.start_date ++ tpl_sep ++
          lbl_previous_experience ++ p.previous_experience ++ tpl_sep ++
          lbl_goals ++ p.goals ++ tpl_tail, ?_⟩,
      ⟨tpl_head ++ lbl_name ++ p.name ++ tpl_sep ++ lbl_role ++ p.role ++
          tpl_sep ++ lbl_department ++ p.department ++ tpl_sep,
        tpl_sep ++ lbl_previous_experience ++ p.previous_experience ++
          tpl_sep ++ lbl_goals ++ p.goals ++ tpl_tail, ?_⟩,
      ⟨tpl_head ++ lbl_name ++ p.name ++ tpl_sep ++ lbl_role ++ p.role ++
          tpl_sep ++ lbl_department ++ p.department ++ tpl_sep ++
          lbl_start_date ++ p.start_date ++ tpl_sep,
        tpl_sep ++ lbl_goals ++ p.goals ++ tpl_tail, ?_⟩,
      ⟨tpl_head ++ lbl_name ++ p.name ++ tpl_sep ++ lbl_role ++ p.role ++
          tpl_sep ++ lbl_department ++ p.department ++ tpl_sep ++
          lbl_start_date ++ p.start_date ++ tpl_sep ++
          lbl_previous_experience ++ p.previous_experience ++ tpl_sep,
        tpl_tail, ?_⟩⟩ <;>
      simp [build_prompt, List.append_assoc]
  · rintro q w hw ⟨c, hcw, hct, hcp⟩ hinf
    have hmem : c ∈ build_prompt p := hinf.subset hcw
    rcases mem_build_prompt hmem with h1 | ⟨x, hx, hcx⟩
    · exact hct h1
    · exact hcp x hx hcx

/-- C4 witness: the hash character in the name of ex_profileC occurs neither
in the template nor in ex_profile, so that name is not contained in the
prompt built from ex_profile; the name slot of that prompt carries the name
of ex_profile verbatim. -/
theorem claim_C4_amended_witness :
    ex_profileC.name ∈ field_values ex_profileC ∧
    ¬ ex_profileC.name <:+: build_prompt ex_profile :=
  ⟨by decide,
    (claim_C4_amended ex_profile).2 ex_profileC ex_profileC.name (by decide)
      ⟨'#', by decide, by decide, by decide⟩⟩

/-- C5: provide_knowledge_assistance depends only on the one call made with
empty history and message equal to the fixed instruction followed by the raw
query; whenever that call returns a response with readable text the text is
returned unconditionally, even when the first candidate stopped for
recitation; and a StopCandidateException propagates instead of being
reclassified, so no filtered-result classification is applied on this
path. -/
theorem claim_C5 (send send' : Service) (query : Str) :
    (send [] (assistance_preamble ++ query) =
        send' [] (assistance_preamble ++ query) →
      provide_knowledge_assistance send query =
        provide_knowledge_assistance send' query) ∧
    (∀ cands t,
      send [] (assistance_preamble ++ query) = .response cands (.ok t) →
      provide_knowledge_assistance send query = .ok t) ∧
    (∀ m, send [] (assistance_preamble ++ query) = .raised (.stopCandidate m) →
      provide_knowledge_assistance send query = .error (.stopCandidate m)) := by
  refine ⟨?_, ?_, ?_⟩
  · intro h
    simp [provide_knowledge_assistance, h]
  · intro cands t h
    simp [provide_knowledge_assistance, h]
  · intro m h
    simp [provide_knowledge_assistance, h]

/-- C5 witness: a recitation-stopped response on the knowledge path is passed
through as plain text, with no filtered classification. -/
theorem claim_C5_witness :
    provide_knowledge_assistance send_recitation
      ("Where is the handbook".data) = .ok ("withheld text".data) :=
  (claim_C5 send_recitation send_recitation
    ("Where is the handbook".data)).2.1
    [⟨("RECITATION".data)⟩] ("withheld text".data) rfl

/-- C6: append behavior of the record store: when the backing file exists it
is loaded in full and rewritten as all existing rows followed by the one new
row; when it does not exist it is created with exactly one row. -/
theorem claim_C6 (df : List EmployeeProfile) (data : EmployeeProfile) :
    save_to_excel (some df) data = df ++ [data] ∧
    (save_to_excel (some df) data).length = df.length + 1 ∧
    save_to_excel none data = [data] ∧
    (save_to_excel none data).length = 1 := by
  simp [save_to_excel]

/-- C7: the knowledge-assistance handler never mutates the record store: for
every query and every service behavior, success or failure, the file state
after the handler equals the file state before it, so the row count is
unchanged. -/
theorem claim_C7 (send : Service) (query : Str)
    (stored : Option (List EmployeeProfile)) :
    (assist_submission send query stored).1 = stored ∧
    row_count (assist_submission send query stored).1 = row_count stored := by
  have h : (assist_submission send query stored).1 = stored := by
    unfold assist_submission
    split
    · cases provide_knowledge_assistance send query <;> rfl
    · rfl
  exact ⟨h, by rw [h]⟩

/-- C8: for an empty or whitespace-only query, no remote call is issued (the
outcome is identical for every service behavior), the caller receives the
validation warning with no rendered answer, and the file state is
untouched. -/
theorem claim_C8 (send send' : Service) (query : Str)
    (stored : Option (List EmployeeProfile))
    (h : py_strip query = []) :
    assist_submission send query stored = (stored, .ok ⟨none, true⟩) ∧
    assist_submission send query stored =
      assist_submission send' query stored := by
  have h1 : ∀ s : Service,
      assist_submission s query stored = (stored, .ok ⟨none, true⟩) := by
    intro s
    simp [assist_submission, h]
  exact ⟨h1 send, by rw [h1 send, h1 send']⟩

/-- C8 witness: a whitespace-only query yields the warning and leaves the
store untouched, for a concrete service. -/
theorem claim_C8_witness :
    assist_submission send_plan ("   ".data) (some [ex_profile]) =
      (some [ex_profile], .ok ⟨none, true⟩) :=
  (claim_C8 send_plan send_stop ("   ".data) (some [ex_profile])
    (by decide)).1

end OnboardMate
